import Mathlib

/-!
Verification of the amazon-price-tracker pipeline (src/amazon_tracker/tracker.py)
against its natural-language specification.

Shallow embedding conventions:
* Python floats carrying prices and timestamps are modelled as exact rationals `ℚ`
  (no arithmetic in the claims depends on floating-point rounding).
* Python `None` becomes `Option.none`; fields that the code may leave unset are
  `Option`-typed.
* Python truthiness tests (`if price and title`, `if not self.email_receiver`,
  `product.last_checked and ...`) are modelled by explicit truthiness functions:
  `0`, `""`, `None` and the empty list are falsy.
* I/O effects are handled by oracle parameters: the HTTP fetch of a URL is a
  function `String → FetchOutcome`, the numeric conversion performed by Python's
  `float` builtin is a function `String → Option ℚ` (absent result = ValueError),
  and the SMTP send is an `Except String Unit` outcome.
* The persisted JSON file is modelled at the level of the decoded JSON array:
  a `List ProductDict`.
* A `TypeError` raised by comparing `None` to a number is modelled by computing
  in `Except PyError`.
-/

/-- One tracked item, mirroring class `Product` in tracker.py: `url`,
`target_price` set by `__init__`; `title`, `current_price`, `last_checked`
nullable. -/
structure Product where
  url : String
  target_price : ℚ
  title : Option String
  current_price : Option ℚ
  last_checked : Option ℚ
deriving Repr, DecidableEq

/-- The JSON object produced by `Product.to_dict`: same five keys, nullable
values where the product's fields are nullable. -/
structure ProductDict where
  url : String
  target_price : ℚ
  title : Option String
  current_price : Option ℚ
  last_checked : Option ℚ
deriving Repr, DecidableEq

/-- `Product.to_dict`: serialize every field under its own key. -/
def Product.to_dict (p : Product) : ProductDict :=
  { url := p.url
    target_price := p.target_price
    title := p.title
    current_price := p.current_price
    last_checked := p.last_checked }

/-- `Product.from_dict`: construct via `cls(data['url'], data['target_price'])`
(which nulls the three optional fields) and then assign `title`,
`current_price`, `last_checked` from the dictionary. -/
def Product.from_dict (d : ProductDict) : Product :=
  let product : Product :=
    { url := d.url, target_price := d.target_price
      title := none, current_price := none, last_checked := none }
  { product with
      title := d.title
      current_price := d.current_price
      last_checked := d.last_checked }

/-- `save_products` (successful write): the file receives the JSON array of
`to_dict` images of the in-memory list, in order. -/
def save_products (ps : List Product) : List ProductDict :=
  ps.map Product.to_dict

/-- `load_products` (successful read of an existing file): the in-memory list
becomes `from_dict` of each element of the persisted array, in order. -/
def load_products (ds : List ProductDict) : List Product :=
  ds.map Product.from_dict

/-- The mutable tracker state that the claims touch: the receiver address
(`email_receiver`, nullable), the in-memory product list, and the decoded
contents of the persisted products.json file. -/
structure TrackerState where
  email_receiver : Option String
  products : List Product
  file : List ProductDict
deriving Repr, DecidableEq

/-- Python truthiness of an optional string (`None` and `""` are falsy). -/
def pyTruthyStr : Option String → Bool
  | none => false
  | some s => s ≠ ""

/-- Python truthiness of an optional rational (`None` and `0` are falsy). -/
def pyTruthyRat : Option ℚ → Bool
  | none => false
  | some q => q ≠ 0

/-- Python's `str.strip()` with no argument: remove leading and trailing
whitespace. -/
def pyStrip (s : String) : String :=
  ⟨((s.data.dropWhile Char.isWhitespace).reverse.dropWhile
      Char.isWhitespace).reverse⟩

/-- Python's `str.replace(c, '')` for a one-character pattern: remove every
occurrence of that character. -/
def pyRemoveChar (c : Char) (s : String) : String :=
  ⟨s.data.filter (fun x => x ≠ c)⟩

/-- Relevant content of a successfully fetched HTML page: the stripped-to-be
text of the `productTitle` element if that element is found, and the text of
the `span.a-price-whole` element if that element is found. -/
structure Page where
  title_elem : Option String
  price_text : Option String
deriving Repr, DecidableEq

/-- Outcome of `self.session.get(url)`: a network exception, or a response
with a status code and (when the parser gets to run) a page. -/
inductive FetchOutcome where
  | networkError : FetchOutcome
  | response : Nat → Page → FetchOutcome
deriving Repr, DecidableEq

/-- `get_product_price(url)`, with the HTTP result given as a `FetchOutcome`
and Python's `float` builtin given as the oracle `conv` (returning `none`
where `float` raises `ValueError`).  Mirrors the source: network error or
non-200 status gives `(None, None)`; the title is the stripped text of the
title element when found, else `None`; when the price element is found its
stripped text has `','` and `'.'` removed and is converted, returning
`(price, title)` on success and `(None, None)` on `ValueError`; when the
price element is absent the result is `(None, None)` even if a title was
found. -/
def get_product_price (conv : String → Option ℚ) (o : FetchOutcome) :
    Option ℚ × Option String :=
  match o with
  | .networkError => (none, none)
  | .response status pg =>
    if status ≠ 200 then
      (none, none)
    else
      let title : Option String := pg.title_elem.map pyStrip
      match pg.price_text with
      | none => (none, none)
      | some s =>
        let price_text := pyRemoveChar '.' (pyRemoveChar ',' (pyStrip s))
        match conv price_text with
        | some price => (some price, title)
        | none => (none, none)

/-- Models Python's `float` builtin restricted to the strings the price path
actually feeds it after separator stripping: a nonempty all-digit string
converts to its decimal value, anything else raises `ValueError` (`none`).
Used to instantiate the conversion oracle on concrete inputs. -/
def convDigits (s : String) : Option ℚ :=
  if s.data ≠ [] ∧ s.data.all Char.isDigit then
    some ((s.data.foldl (fun n c => n * 10 + (c.toNat - 48)) 0 : ℕ) : ℚ)
  else
    none

/-- `remove_product(index)`: pop and save when `0 <= index < len(products)`,
otherwise return `False` without touching anything.  The index is an `Int`
so that negative Python ints are covered. -/
def remove_product (st : TrackerState) (index : Int) : Bool × TrackerState :=
  if 0 ≤ index ∧ index < st.products.length then
    let ps := st.products.eraseIdx index.toNat
    (true, { st with products := ps, file := save_products ps })
  else
    (false, st)

/-- The skip test at the head of the `update_prices` loop:
`not force and product.last_checked and (current_time - product.last_checked) < 3600`,
with Python truthiness of `last_checked` (both `None` and `0` are falsy). -/
def skipCheck (force : Bool) (now : ℚ) (p : Product) : Bool :=
  !force &&
    (match p.last_checked with
     | none => false
     | some lc => decide (lc ≠ 0) && decide (now - lc < 3600))

/-- The success test the callers apply to a fetch result:
`if price and title` — Python truthiness of both components. -/
def fetchSuccess (pt : Option ℚ × Option String) : Bool :=
  pyTruthyRat pt.1 && pyTruthyStr pt.2

/-- The product after a successful fetch: `current_price`, `title` and
`last_checked` overwritten together. -/
def applyFetch (now : ℚ) (pt : Option ℚ × Option String) (p : Product) :
    Product :=
  { p with current_price := pt.1, title := pt.2, last_checked := some now }

/-- The loop body of `update_prices(force)` over the product list.  Returns
(new product list, `updated_products` in store order, list of URLs for which
a fetch was attempted).  Skipped products are passed through; an attempted
fetch overwrites the three fields only when `fetchSuccess` holds, and the
loop continues over the remaining products unconditionally. -/
def update_prices_list (conv : String → Option ℚ)
    (fetch : String → FetchOutcome) (now : ℚ) (force : Bool) :
    List Product → List Product × List Product × List String
  | [] => ([], [], [])
  | p :: rest =>
    if skipCheck force now p then
      let r := update_prices_list conv fetch now force rest
      (p :: r.1, r.2.1, r.2.2)
    else
      let pt := get_product_price conv (fetch p.url)
      let r := update_prices_list conv fetch now force rest
      if fetchSuccess pt then
        (applyFetch now pt p :: r.1, applyFetch now pt p :: r.2.1,
          p.url :: r.2.2)
      else
        (p :: r.1, r.2.1, p.url :: r.2.2)

/-- `update_prices(force)` at the state level: run the loop, then save the
store once iff `updated_products` is non-empty. -/
def update_prices (conv : String → Option ℚ) (fetch : String → FetchOutcome)
    (now : ℚ) (force : Bool) (st : TrackerState) :
    TrackerState × List Product × List String :=
  let r := update_prices_list conv fetch now force st.products
  if r.2.1.isEmpty then
    ({ st with products := r.1 }, r.2.1, r.2.2)
  else
    ({ st with products := r.1, file := save_products r.1 }, r.2.1, r.2.2)

/-- `add_product_with_data(url, target_price, title, current_price)`: append
a product whose `last_checked` is now, persist, and return success. -/
def add_product_with_data (now : ℚ) (st : TrackerState) (url : String)
    (target_price : ℚ) (title : Option String) (current_price : Option ℚ) :
    TrackerState × Bool :=
  let ps := st.products ++
    [{ url := url, target_price := target_price, title := title,
       current_price := current_price, last_checked := some now }]
  ({ st with products := ps, file := save_products ps }, true)

/-- `add_product(url, target_price)`: fetch first; on a truthy price and
title delegate to `add_product_with_data`, otherwise return failure with the
store untouched. -/
def add_product (conv : String → Option ℚ) (fetch : String → FetchOutcome)
    (now : ℚ) (st : TrackerState) (url : String) (target_price : ℚ) :
    TrackerState × Bool :=
  let pt := get_product_price conv (fetch url)
  if fetchSuccess pt then
    add_product_with_data now st url target_price pt.2 pt.1
  else
    (st, false)

/-- The exception a Python 3 comparison `None <= float` raises. -/
inductive PyError where
  | typeError : PyError
deriving Repr, DecidableEq

/-- The `price_drops` loop of `check_prices`: walk the whole product list in
order, appending every product whose `current_price <= target_price`; a
product whose `current_price` is `None` raises `TypeError` at the comparison,
aborting the loop. -/
def price_drops_loop : List Product → Except PyError (List Product)
  | [] => .ok []
  | p :: rest =>
    match p.current_price with
    | none => .error .typeError
    | some c =>
      match price_drops_loop rest with
      | .error e => .error e
      | .ok d => .ok (if c ≤ p.target_price then p :: d else d)

/-- Everything `check_prices` produces in the embedding: the final tracker
state, the `updated` list and attempted URLs from the refresh, the computed
`price_drops`, and whether a notification was attempted / actually sent. -/
structure CheckResult where
  state : TrackerState
  updated : List Product
  attempts : List String
  drops : List Product
  emailAttempted : Bool
  emailSent : Bool
deriving Repr, DecidableEq

/-- `send_email(products)` with the SMTP interaction given as an
`Except String Unit` oracle: an empty batch returns immediately; otherwise
the whole compose-connect-login-send block runs inside `try/except`, so any
fault is caught and the method returns normally either way.  The store state
is returned untouched: the method never mutates `self.products` or the
file. -/
def send_email (smtp : Except String Unit) (st : TrackerState)
    (products : List Product) : TrackerState × Bool :=
  if products.isEmpty then
    (st, false)
  else
    match smtp with
    | .ok _ => (st, true)
    | .error _ => (st, false)

/-- `check_prices(force_update)`: bail out (no refresh, no fetch, no
mutation) when the receiver email is falsy; otherwise run `update_prices`,
compute `price_drops` over ALL tracked products (propagating `TypeError`),
and invoke `send_email` only when the drop list is non-empty. -/
def check_prices (conv : String → Option ℚ) (fetch : String → FetchOutcome)
    (smtp : Except String Unit) (now : ℚ) (force_update : Bool)
    (st : TrackerState) : Except PyError CheckResult :=
  if !pyTruthyStr st.email_receiver then
    .ok { state := st, updated := [], attempts := [], drops := [],
          emailAttempted := false, emailSent := false }
  else
    let r := update_prices conv fetch now force_update st
    match price_drops_loop r.1.products with
    | .error e => .error e
    | .ok drops =>
      if drops.isEmpty then
        .ok { state := r.1, updated := r.2.1, attempts := r.2.2,
              drops := drops, emailAttempted := false, emailSent := false }
      else
        let se := send_email smtp r.1 drops
        .ok { state := se.1, updated := r.2.1, attempts := r.2.2,
              drops := drops, emailAttempted := true, emailSent := se.2 }

/-- A concrete 3-item store used to instantiate theorems on explicit inputs;
its first product has a null `current_price`. -/
def stThree : TrackerState :=
  { email_receiver := some "r@example.com"
    products :=
      [{ url := "u0", target_price := 10, title := none,
         current_price := none, last_checked := none },
       { url := "u1", target_price := 20, title := some "B",
         current_price := some 15, last_checked := some 100 },
       { url := "u2", target_price := 30, title := none,
         current_price := some 40, last_checked := none }]
    file := [] }

/-- A product below target, freshly checked. -/
def prodA : Product :=
  { url := "a", target_price := 50, title := some "A",
    current_price := some 45, last_checked := some 1000000 }

/-- A product above target, freshly checked. -/
def prodB : Product :=
  { url := "b", target_price := 30, title := some "B",
    current_price := some 35, last_checked := some 1000000 }

/-- A 2-item store with every `current_price` set and a receiver address. -/
def stTwo : TrackerState :=
  { email_receiver := some "r@example.com", products := [prodA, prodB],
    file := [] }

/-- A stale product whose stored fields differ from what the next fetch
returns. -/
def prodStale : Product :=
  { url := "u", target_price := 50, title := some "Old",
    current_price := some 60, last_checked := none }

/-- A fetch oracle whose page carries title "T" and price text "0". -/
def fetchZeroPrice : String → FetchOutcome :=
  fun _ => .response 200 { title_elem := some "T", price_text := some "0" }

/-- A product last checked 3599 seconds before the first refresh below. -/
def prodAging : Product :=
  { url := "u", target_price := 50, title := some "T",
    current_price := some 60, last_checked := some 996401 }

/-- A fetch oracle that always fails with a network error. -/
def fetchFail : String → FetchOutcome :=
  fun _ => .networkError

/-- A never-checked product. -/
def prodFresh : Product :=
  { url := "w", target_price := 50, title := none,
    current_price := none, last_checked := none }

/-- A fetch oracle whose page carries title "T" and price text "42". -/
def fetchGood : String → FetchOutcome :=
  fun _ => .response 200 { title_elem := some "T", price_text := some "42" }

lemma update_prices_list_length (conv : String → Option ℚ)
    (fetch : String → FetchOutcome) (now : ℚ) (force : Bool) :
    ∀ ps : List Product,
      (update_prices_list conv fetch now force ps).1.length = ps.length := by
  intro ps
  induction ps with
  | nil => rfl
  | cons p rest ih =>
    unfold update_prices_list
    split
    · simpa using ih
    · dsimp only
      split
      · simpa using ih
      · simpa using ih

lemma update_prices_list_getD (conv : String → Option ℚ)
    (fetch : String → FetchOutcome) (now : ℚ) (force : Bool) :
    ∀ (ps : List Product) (i : Nat), i < ps.length → ∀ d : Product,
      (update_prices_list conv fetch now force ps).1.getD i d =
        (let p := ps.getD i d
         if skipCheck force now p then p
         else
           let pt := get_product_price conv (fetch p.url)
           if fetchSuccess pt then applyFetch now pt p else p) := by
  intro ps
  induction ps with
  | nil => intro i hi d; simp at hi
  | cons p rest ih =>
    intro i hi d
    unfold update_prices_list
    cases i with
    | zero =>
      split
      · simp_all
      · simp_all
        split <;> simp_all
    | succ j =>
      have hj : j < rest.length := by simpa using hi
      split
      · simpa using ih j hj d
      · dsimp only
        split
        · simpa using ih j hj d
        · simpa using ih j hj d

lemma update_prices_list_attempted (conv : String → Option ℚ)
    (fetch : String → FetchOutcome) (now : ℚ) (force : Bool) :
    ∀ ps : List Product, ∀ p ∈ ps, skipCheck force now p = false →
      p.url ∈ (update_prices_list conv fetch now force ps).2.2 := by
  intro ps
  induction ps with
  | nil => intro p hp; simp at hp
  | cons q rest ih =>
    intro p hp hskip
    unfold update_prices_list
    rcases List.mem_cons.mp hp with hq | hrest
    · subst hq
      rw [if_neg (by simp [hskip])]
      dsimp only
      split <;> simp
    · split
      · exact ih p hrest hskip
      · dsimp only
        split <;> simpa using Or.inr (ih p hrest hskip)

lemma update_prices_list_updated_length_le (conv : String → Option ℚ)
    (fetch : String → FetchOutcome) (now : ℚ) (force : Bool) :
    ∀ ps : List Product,
      (update_prices_list conv fetch now force ps).2.1.length ≤ ps.length := by
  intro ps
  induction ps with
  | nil => simp [update_prices_list]
  | cons p rest ih =>
    unfold update_prices_list
    split
    · simp only [List.length_cons]
      omega
    · dsimp only
      split
      · simp only [List.length_cons]
        omega
      · simp only [List.length_cons]
        omega

lemma update_prices_list_all_updated (conv : String → Option ℚ)
    (fetch : String → FetchOutcome) (now : ℚ) (force : Bool) :
    ∀ ps : List Product,
      (update_prices_list conv fetch now force ps).2.1.length = ps.length →
      ∀ p ∈ (update_prices_list conv fetch now force ps).1,
        p.last_checked = some now := by
  intro ps
  induction ps with
  | nil => simp [update_prices_list]
  | cons p rest ih =>
    intro hlen q hq
    have hle := update_prices_list_updated_length_le conv fetch now force rest
    revert hlen hq
    unfold update_prices_list
    split
    · intro hlen
      exfalso
      simp only [List.length_cons] at hlen
      omega
    · dsimp only
      split
      · intro hlen hq
        simp only [List.length_cons, Nat.add_right_cancel_iff] at hlen
        rcases List.mem_cons.mp hq with h | h
        · subst h
          rfl
        · exact ih hlen q h
      · intro hlen
        exfalso
        simp only [List.length_cons] at hlen
        omega

lemma update_prices_list_all_skipped (conv : String → Option ℚ)
    (fetch : String → FetchOutcome) (now : ℚ) (force : Bool) :
    ∀ ps : List Product, (∀ p ∈ ps, skipCheck force now p = true) →
      update_prices_list conv fetch now force ps = (ps, [], []) := by
  intro ps
  induction ps with
  | nil => intro; rfl
  | cons p rest ih =>
    intro hall
    unfold update_prices_list
    rw [if_pos (hall p (List.mem_cons_self p rest)),
      ih (fun q hq => hall q (List.mem_cons_of_mem p hq))]

/-- C3: save followed by load reconstructs an equal ordered sequence:
same length, and at every index the same url, target_price, title,
current_price, and last_checked (here: the very same product). -/
theorem save_load_roundtrip (ps : List Product) :
    load_products (save_products ps) = ps ∧
    (load_products (save_products ps)).length = ps.length := by
  have h : load_products (save_products ps) = ps := by
    unfold load_products save_products
    rw [List.map_map]
    have hid : Product.from_dict ∘ Product.to_dict = id := by
      funext p
      cases p
      rfl
    rw [hid, List.map_id]
  exact ⟨h, by rw [h]⟩

/-- C6: `remove_product(index)` removes the product at `index` and persists the
shortened list when `0 ≤ index < n`; for every other index (too large or
negative) it returns failure and leaves the store entirely unchanged. -/
theorem remove_product_spec (st : TrackerState) (index : Int) :
    (0 ≤ index ∧ index < st.products.length →
      remove_product st index =
        (true,
          { st with
              products := st.products.eraseIdx index.toNat
              file := save_products (st.products.eraseIdx index.toNat) }) ∧
      (remove_product st index).2.products.length + 1 = st.products.length) ∧
    (¬(0 ≤ index ∧ index < st.products.length) →
      remove_product st index = (false, st)) := by
  constructor
  · intro h
    constructor
    · simp [remove_product, h]
    · simp only [remove_product, if_pos h]
      have hlt : index.toNat < st.products.length := by
        omega
      exact List.length_eraseIdx_add_one hlt
  · intro h
    simp [remove_product, h]

/-- Concrete instantiation of `remove_product_spec`: on a 3-item store,
`remove(5)` fails and leaves the store unchanged, while removing index 1
succeeds and shrinks the list to length 2. -/
theorem remove_product_spec_witness :
    remove_product stThree 5 = (false, stThree) ∧
    (remove_product stThree 1).2.products.length = 2 := by
  have h5 := (remove_product_spec stThree 5).2 (by decide)
  have h1 := ((remove_product_spec stThree 1).1 (by decide)).1
  refine ⟨h5, ?_⟩
  rw [h1]
  rfl

/-- C5 counterexample: on a 200-status page whose title element is found
(text "Widget") but whose price element is absent, `get_product_price`
returns `(None, None)` — the found title is NOT returned together with an
absent price, contradicting the claim's symmetry. -/
theorem get_product_price_title_not_preserved :
    get_product_price convDigits
        (.response 200 { title_elem := some "Widget", price_text := none }) =
      (none, none) ∧
    (get_product_price convDigits
        (.response 200 { title_elem := some "Widget", price_text := none })).2 ≠
      some "Widget" := by
  exact ⟨rfl, by decide⟩

/-- C5 amended: `get_product_price` is asymmetric.  A page with a convertible
price yields the price together with the title if found and an absent title
otherwise (absence of the title does not erase the price); but a page whose
price element is absent, or whose price text fails numeric conversion,
yields BOTH absent — a found title is discarded rather than returned. -/
theorem get_product_price_asymmetry (conv : String → Option ℚ) (pg : Page) :
    (∀ s q, pg.price_text = some s →
        conv (pyRemoveChar '.' (pyRemoveChar ',' (pyStrip s))) = some q →
        get_product_price conv (.response 200 pg) =
          (some q, pg.title_elem.map pyStrip)) ∧
    (pg.price_text = none →
        get_product_price conv (.response 200 pg) = (none, none)) ∧
    (∀ s, pg.price_text = some s →
        conv (pyRemoveChar '.' (pyRemoveChar ',' (pyStrip s))) = none →
        get_product_price conv (.response 200 pg) = (none, none)) := by
  refine ⟨?_, ?_, ?_⟩
  · intro s q hs hc
    simp [get_product_price, hs, hc]
  · intro hs
    simp [get_product_price, hs]
  · intro s hs hc
    simp [get_product_price, hs, hc]

/-- Concrete instantiation of `get_product_price_asymmetry`: a page with
price text "42" and no title yields `(42, None)`; a page with a title but
no price element yields `(None, None)`. -/
theorem get_product_price_asymmetry_witness :
    get_product_price convDigits
        (.response 200 { title_elem := none, price_text := some "42" }) =
      (some 42, none) ∧
    get_product_price convDigits
        (.response 200 { title_elem := some " T ", price_text := none }) =
      (none, none) := by
  have h1 := get_product_price_asymmetry convDigits
    { title_elem := none, price_text := some "42" }
  have h2 := get_product_price_asymmetry convDigits
    { title_elem := some " T ", price_text := none }
  exact ⟨h1.1 "42" 42 rfl (by decide), h2.2.1 rfl⟩

/-- C2 counterexample: a refresh attempt on a stale product whose fetch+parse
DOES yield both a price (0) and a title ("T") nevertheless leaves the product
unchanged and updates nothing, because the code's success test is truthiness
(`if price and title`) and `0.0` is falsy — the claim's "yields both a price
and a title overwrites all three" fails at price 0. -/
theorem update_both_yielded_not_applied :
    get_product_price convDigits (fetchZeroPrice "u") = (some 0, some "T") ∧
    update_prices_list convDigits fetchZeroPrice 1000 true [prodStale] =
      ([prodStale], [], ["u"]) ∧
    prodStale.title ≠ some "T" ∧ prodStale.current_price ≠ some 0 := by
  refine ⟨rfl, rfl, by decide, by decide⟩

/-- C2 amended: in every refresh cycle, each product's `title`,
`current_price` and `last_checked` are updated together or not at all: a
non-skipped attempt whose fetch result passes the truthiness success test
(nonzero price AND nonempty title both present) overwrites all three
(`applyFetch`), while any other attempt — only one of the two yielded,
neither yielded, a zero price, or an empty title — leaves all three fields
unchanged; and every non-skipped product's URL is fetched regardless of the
outcome at any other position, so a per-product failure does not stop the
loop. -/
theorem update_atomicity (conv : String → Option ℚ)
    (fetch : String → FetchOutcome) (now : ℚ) (force : Bool)
    (ps : List Product) (i : Nat) (d : Product) (hi : i < ps.length) :
    (update_prices_list conv fetch now force ps).1.length = ps.length ∧
    (skipCheck force now (ps.getD i d) = false →
      (ps.getD i d).url ∈ (update_prices_list conv fetch now force ps).2.2) ∧
    (skipCheck force now (ps.getD i d) = false →
      fetchSuccess (get_product_price conv (fetch (ps.getD i d).url)) = true →
      (update_prices_list conv fetch now force ps).1.getD i d =
        applyFetch now (get_product_price conv (fetch (ps.getD i d).url))
          (ps.getD i d)) ∧
    (skipCheck force now (ps.getD i d) = false →
      fetchSuccess (get_product_price conv (fetch (ps.getD i d).url)) = false →
      (update_prices_list conv fetch now force ps).1.getD i d = ps.getD i d) ∧
    (skipCheck force now (ps.getD i d) = true →
      (update_prices_list conv fetch now force ps).1.getD i d = ps.getD i d) := by
  have hmem : ps.getD i d ∈ ps := by
    rw [List.getD_eq_getElem ps d hi]
    exact List.getElem_mem hi
  have hchar := update_prices_list_getD conv fetch now force ps i hi d
  refine ⟨update_prices_list_length conv fetch now force ps, ?_, ?_, ?_, ?_⟩
  · intro hskip
    exact update_prices_list_attempted conv fetch now force ps _ hmem hskip
  · intro hskip hsucc
    rw [hchar]
    dsimp only
    rw [if_neg (by rw [hskip]; simp), if_pos hsucc]
  · intro hskip hsucc
    rw [hchar]
    dsimp only
    rw [if_neg (by rw [hskip]; simp), if_neg (by rw [hsucc]; simp)]
  · intro hskip
    rw [hchar]
    dsimp only
    rw [if_pos hskip]

/-- Concrete instantiation of `update_atomicity`: a never-checked product
fetched successfully gets all three fields overwritten, and its URL was
attempted. -/
theorem update_atomicity_witness :
    (update_prices_list convDigits fetchGood 1000000 false [prodFresh]).1.getD
        0 prodFresh =
      applyFetch 1000000
        (get_product_price convDigits (fetchGood prodFresh.url)) prodFresh ∧
    prodFresh.url ∈
      (update_prices_list convDigits fetchGood 1000000 false [prodFresh]).2.2 := by
  have h := update_atomicity convDigits fetchGood 1000000 false [prodFresh] 0
    prodFresh (by decide)
  exact ⟨h.2.2.1 rfl rfl, h.2.1 rfl⟩

/-- C10: a fetch+parse attempt whose parsed price equals 0 or whose extracted
title is the empty string fails the truthiness success test even though both
values were obtained: `update_prices` leaves the product unchanged and adds
nothing to the updated set, and `add_product` returns failure with the store
untouched. -/
theorem degenerate_fetch_treated_as_failure (conv : String → Option ℚ)
    (fetch : String → FetchOutcome) (now : ℚ) (force : Bool)
    (st : TrackerState) (tp q : ℚ) (t : String) (p : Product)
    (hfetch : get_product_price conv (fetch p.url) = (some q, some t))
    (hdeg : q = 0 ∨ t = "")
    (hskip : skipCheck force now p = false) :
    update_prices_list conv fetch now force [p] = ([p], [], [p.url]) ∧
    add_product conv fetch now st p.url tp = (st, false) := by
  have hfs : fetchSuccess (get_product_price conv (fetch p.url)) = false := by
    rw [hfetch]
    rcases hdeg with h | h <;>
      simp [fetchSuccess, pyTruthyRat, pyTruthyStr, h]
  constructor
  · simp [update_prices_list, hskip, hfs]
  · simp [add_product, hfs]

/-- Concrete instantiation of `degenerate_fetch_treated_as_failure` at parsed
price 0 with title "T". -/
theorem degenerate_fetch_treated_as_failure_witness :
    update_prices_list convDigits fetchZeroPrice 1000 false [prodStale] =
      ([prodStale], [], ["u"]) ∧
    add_product convDigits fetchZeroPrice 1000 stThree "u" 50 =
      (stThree, false) :=
  degenerate_fetch_treated_as_failure convDigits fetchZeroPrice 1000 false
    stThree 50 0 "T" prodStale rfl (Or.inl rfl) rfl

/-- C4 counterexample: a store whose single product was last checked 3599 s
before a first `refresh(force=False)` is skipped by that call (no update),
and a second call 3598 s later — within one hour of the first — attempts one
fetch, because by then the product's `last_checked` is 7197 s old.  The
claim's "zero fetch attempts on the second call" fails. -/
theorem refresh_twice_fetches_again :
    update_prices_list convDigits fetchFail 1000000 false [prodAging] =
      ([prodAging], [], []) ∧
    (1003598 : ℚ) - 1000000 < 3600 ∧
    update_prices_list convDigits fetchFail 1003598 false
        ((update_prices_list convDigits fetchFail 1000000 false
          [prodAging]).1) =
      ([prodAging], [], ["u"]) ∧
    (["u"] : List String) ≠ [] := by
  have hskip1 : skipCheck false 1000000 prodAging = true := by
    simp only [skipCheck, prodAging, Bool.not_false, Bool.true_and,
      Bool.and_eq_true, decide_eq_true_eq]
    norm_num
  have hskip2 : skipCheck false 1003598 prodAging = false := by
    simp only [skipCheck, prodAging, Bool.not_false, Bool.true_and,
      Bool.and_eq_true, Bool.and_eq_false_iff, decide_eq_true_eq,
      decide_eq_false_iff_not]
    norm_num
  have hfirst : update_prices_list convDigits fetchFail 1000000 false
      [prodAging] = ([prodAging], [], []) := by
    simp [update_prices_list, hskip1]
  refine ⟨hfirst, by norm_num, ?_, by decide⟩
  rw [hfirst]
  simp only [update_prices_list, hskip2, get_product_price, fetchFail,
    fetchSuccess, pyTruthyRat, Bool.and_self, if_false, Bool.false_eq_true]
  rfl

/-- C4 amended: if every tracked product was updated by the first
`refresh(force=False)` call (so each `last_checked` was set to the first
call's time, which is nonzero), then a second `refresh(force=False)` call
less than 3600 seconds later performs zero fetch attempts and returns an
empty updated set, leaving the product list as the first call produced it.
Products that the first call skipped or failed to update keep an older (or
null) `last_checked` and may be refetched by the second call. -/
theorem refresh_idempotent_when_all_updated (conv1 conv2 : String → Option ℚ)
    (fetch1 fetch2 : String → FetchOutcome) (now1 now2 : ℚ)
    (ps : List Product)
    (hall : (update_prices_list conv1 fetch1 now1 false ps).2.1.length =
      ps.length)
    (h1 : now1 ≠ 0) (h2 : now2 - now1 < 3600) :
    update_prices_list conv2 fetch2 now2 false
        ((update_prices_list conv1 fetch1 now1 false ps).1) =
      ((update_prices_list conv1 fetch1 now1 false ps).1, [], []) := by
  apply update_prices_list_all_skipped
  intro p hp
  have hlc := update_prices_list_all_updated conv1 fetch1 now1 false ps hall
    p hp
  simp [skipCheck, hlc, h1, h2]

/-- Concrete instantiation of `refresh_idempotent_when_all_updated`: a
single never-checked product is updated by the first call at time 1000000,
and the second call at 1003598 fetches nothing and updates nothing. -/
theorem refresh_idempotent_when_all_updated_witness :
    update_prices_list convDigits fetchGood 1003598 false
        ((update_prices_list convDigits fetchGood 1000000 false
          [prodFresh]).1) =
      ((update_prices_list convDigits fetchGood 1000000 false
        [prodFresh]).1, [], []) :=
  refresh_idempotent_when_all_updated convDigits convDigits fetchGood
    fetchGood 1000000 1003598 [prodFresh] (by decide) (by norm_num)
    (by norm_num)

lemma send_email_state (smtp : Except String Unit) (st : TrackerState)
    (ps : List Product) : (send_email smtp st ps).1 = st := by
  unfold send_email
  split
  · rfl
  · cases smtp <;> rfl

lemma price_drops_loop_mem : ∀ l d : List Product,
    price_drops_loop l = .ok d →
    ∀ p : Product, p ∈ d ↔
      (p ∈ l ∧ ∃ c, p.current_price = some c ∧ c ≤ p.target_price) := by
  intro l
  induction l with
  | nil =>
    intro d hd p
    unfold price_drops_loop at hd
    injection hd with h
    subst h
    simp
  | cons q rest ih =>
    intro d hd p
    unfold price_drops_loop at hd
    cases hq : q.current_price with
    | none =>
      rw [hq] at hd
      simp at hd
    | some c =>
      rw [hq] at hd
      cases hr : price_drops_loop rest with
      | error e =>
        rw [hr] at hd
        simp at hd
      | ok d2 =>
        rw [hr] at hd
        injection hd with h
        subst h
        by_cases hc : c ≤ q.target_price
        · rw [if_pos hc]
          simp only [List.mem_cons]
          constructor
          · rintro (rfl | hmem)
            · exact ⟨Or.inl rfl, c, hq, hc⟩
            · obtain ⟨hin, hcond⟩ := (ih d2 hr p).mp hmem
              exact ⟨Or.inr hin, hcond⟩
          · rintro ⟨hor, hcond⟩
            rcases hor with rfl | hin
            · exact Or.inl rfl
            · exact Or.inr ((ih d2 hr p).mpr ⟨hin, hcond⟩)
        · rw [if_neg hc]
          constructor
          · intro hmem
            obtain ⟨hin, hcond⟩ := (ih d2 hr p).mp hmem
            exact ⟨List.mem_cons_of_mem q hin, hcond⟩
          · rintro ⟨hor, hcond⟩
            rcases List.mem_cons.mp hor with rfl | hin
            · obtain ⟨c2, hc2, hle⟩ := hcond
              rw [hq] at hc2
              injection hc2 with hcc
              rw [← hcc] at hle
              exact absurd hle hc
            · exact (ih d2 hr p).mpr ⟨hin, hcond⟩

lemma price_drops_loop_error_of_none : ∀ l : List Product,
    (∃ p ∈ l, p.current_price = none) →
    price_drops_loop l = .error .typeError := by
  intro l
  induction l with
  | nil =>
    intro h
    simp at h
  | cons q rest ih =>
    intro h
    unfold price_drops_loop
    cases hq : q.current_price with
    | none => rfl
    | some c =>
      obtain ⟨p, hp, hnone⟩ := h
      rcases List.mem_cons.mp hp with rfl | hin
      · rw [hq] at hnone
        simp at hnone
      · rw [ih ⟨p, hin, hnone⟩]

/-- C1: when `check_prices(force_update)` runs past the refresh and returns
normally, the computed `price_drops` contains exactly those tracked products
of the whole (post-refresh) store whose `current_price` is at most their
`target_price`: every such product is included, every product above target is
excluded. -/
theorem price_drops_exact (conv : String → Option ℚ)
    (fetch : String → FetchOutcome) (smtp : Except String Unit) (now : ℚ)
    (force_update : Bool) (st : TrackerState) (r : CheckResult)
    (hrecv : pyTruthyStr st.email_receiver = true)
    (hok : check_prices conv fetch smtp now force_update st = .ok r) :
    ∀ p : Product, p ∈ r.drops ↔
      (p ∈ r.state.products ∧
        ∃ c, p.current_price = some c ∧ c ≤ p.target_price) := by
  intro p
  have hcond : ¬((!pyTruthyStr st.email_receiver) = true) := by
    rw [hrecv]
    simp
  unfold check_prices at hok
  rw [if_neg hcond] at hok
  dsimp only at hok
  cases hpd : price_drops_loop
      (update_prices conv fetch now force_update st).1.products with
  | error e =>
    rw [hpd] at hok
    simp at hok
  | ok drops =>
    rw [hpd] at hok
    dsimp only at hok
    by_cases hemp : drops.isEmpty = true
    · rw [if_pos hemp] at hok
      injection hok with h
      subst h
      exact price_drops_loop_mem _ _ hpd p
    · rw [if_neg hemp] at hok
      injection hok with h
      subst h
      have hst := send_email_state smtp
        (update_prices conv fetch now force_update st).1 drops
      simp only [hst]
      exact price_drops_loop_mem _ _ hpd p

/-- The result `check_prices` produces on `stTwo` with `force_update=True`,
every fetch failing, and a successful SMTP send. -/
def rConc : CheckResult :=
  { state := stTwo, updated := [], attempts := ["a", "b"], drops := [prodA],
    emailAttempted := true, emailSent := true }

/-- Concrete instantiation of `price_drops_exact`: on `stTwo`, the product at
price 45 with target 50 is in `price_drops` and the product at price 35 with
target 30 is not. -/
theorem price_drops_exact_witness :
    prodA ∈ rConc.drops ∧ ¬ prodB ∈ rConc.drops := by
  have h := price_drops_exact convDigits fetchFail (.ok ()) 1000001 true
    stTwo rConc rfl rfl
  constructor
  · exact (h prodA).mpr ⟨by decide, 45, rfl, by norm_num [prodA]⟩
  · intro hmem
    obtain ⟨-, c, hc, hle⟩ := (h prodB).mp hmem
    injection hc with hcc
    rw [← hcc] at hle
    norm_num [prodB] at hle

/-- C7: a notification failure (SMTP oracle `.error e`, covering any fault
while composing, connecting, authenticating or sending) does not propagate —
`check_prices` returns exactly the same store state as with a successful
send — and when the check returns normally with a receiver set, that state is
precisely the post-refresh state: the products list and persisted file are as
they were before the notification attempt, persistence having completed
during refresh. -/
theorem notify_failure_isolated (conv : String → Option ℚ)
    (fetch : String → FetchOutcome) (e : String) (now : ℚ) (force : Bool)
    (st : TrackerState) :
    (check_prices conv fetch (.error e) now force st).map CheckResult.state =
      (check_prices conv fetch (.ok ()) now force st).map CheckResult.state ∧
    (∀ r : CheckResult,
      check_prices conv fetch (.error e) now force st = .ok r →
      pyTruthyStr st.email_receiver = true →
      r.state = (update_prices conv fetch now force st).1) := by
  by_cases hrecv : pyTruthyStr st.email_receiver = true
  · have hcond : ¬((!pyTruthyStr st.email_receiver) = true) := by
      rw [hrecv]
      simp
    constructor
    · unfold check_prices
      rw [if_neg hcond, if_neg hcond]
      dsimp only
      cases hpd : price_drops_loop
          (update_prices conv fetch now force st).1.products with
      | error e2 => rfl
      | ok drops =>
        dsimp only
        by_cases hemp : drops.isEmpty = true
        · rw [if_pos hemp, if_pos hemp]
        · rw [if_neg hemp, if_neg hemp]
          simp only [Except.map, send_email_state]
    · intro r hok htrue
      unfold check_prices at hok
      rw [if_neg hcond] at hok
      dsimp only at hok
      cases hpd : price_drops_loop
          (update_prices conv fetch now force st).1.products with
      | error e2 =>
        rw [hpd] at hok
        simp at hok
      | ok drops =>
        rw [hpd] at hok
        dsimp only at hok
        by_cases hemp : drops.isEmpty = true
        · rw [if_pos hemp] at hok
          injection hok with h
          subst h
          rfl
        · rw [if_neg hemp] at hok
          injection hok with h
          subst h
          exact send_email_state _ _ _
  · have hf : pyTruthyStr st.email_receiver = false := by
      revert hrecv
      cases pyTruthyStr st.email_receiver <;> simp
    have hcond : (!pyTruthyStr st.email_receiver) = true := by
      rw [hf]
      rfl
    constructor
    · unfold check_prices
      rw [if_pos hcond, if_pos hcond]
    · intro r hok htrue
      exact absurd htrue (by simp [hf])

/-- The result `check_prices` produces on `stTwo` with `force_update=True`,
every fetch failing, and a failing SMTP send. -/
def rConcErr : CheckResult :=
  { state := stTwo, updated := [], attempts := ["a", "b"], drops := [prodA],
    emailAttempted := true, emailSent := false }

/-- Concrete instantiation of `notify_failure_isolated`: with a failing SMTP
oracle on `stTwo`, the resulting state map equals the successful-send state
map, and the returned state is the post-refresh state. -/
theorem notify_failure_isolated_witness :
    (check_prices convDigits fetchFail (.error "boom") 1000001 true
        stTwo).map CheckResult.state =
      (check_prices convDigits fetchFail (.ok ()) 1000001 true stTwo).map
        CheckResult.state ∧
    rConcErr.state = (update_prices convDigits fetchFail 1000001 true
      stTwo).1 := by
  have h := notify_failure_isolated convDigits fetchFail "boom" 1000001 true
    stTwo
  exact ⟨h.1, h.2 rConcErr rfl rfl⟩

/-- C8: when no receiver email address is set (falsy receiver),
`check_prices(force_update)` returns at once with the configuration error
path: no fetch attempt, no update, no price-drop computation, no
notification, and the store — products and persisted file — exactly as it
was. -/
theorem missing_receiver_no_op (conv : String → Option ℚ)
    (fetch : String → FetchOutcome) (smtp : Except String Unit) (now : ℚ)
    (force_update : Bool) (st : TrackerState)
    (h : pyTruthyStr st.email_receiver = false) :
    check_prices conv fetch smtp now force_update st =
      .ok { state := st, updated := [], attempts := [], drops := [],
            emailAttempted := false, emailSent := false } := by
  unfold check_prices
  rw [if_pos (by rw [h]; rfl)]

/-- A store with no receiver email configured. -/
def stNoRecv : TrackerState :=
  { email_receiver := none, products := [prodA], file := [] }

/-- Concrete instantiation of `missing_receiver_no_op`. -/
theorem missing_receiver_no_op_witness :
    check_prices convDigits fetchFail (.ok ()) 5 true stNoRecv =
      .ok { state := stNoRecv, updated := [], attempts := [], drops := [],
            emailAttempted := false, emailSent := false } :=
  missing_receiver_no_op convDigits fetchFail (.ok ()) 5 true stNoRecv rfl

/-- C9: with a receiver set, if any tracked product still has a null
`current_price` when the price-drop comparison runs (e.g. loaded from a
persisted null and its refresh attempt failed), the Python comparison
`None <= target_price` raises `TypeError`, aborting the whole check before
any notification rather than skipping that product. -/
theorem null_price_aborts_check (conv : String → Option ℚ)
    (fetch : String → FetchOutcome) (smtp : Except String Unit) (now : ℚ)
    (force_update : Bool) (st : TrackerState)
    (hrecv : pyTruthyStr st.email_receiver = true)
    (hnone : ∃ p ∈ (update_prices conv fetch now force_update st).1.products,
      p.current_price = none) :
    check_prices conv fetch smtp now force_update st = .error .typeError := by
  have hcond : ¬((!pyTruthyStr st.email_receiver) = true) := by
    rw [hrecv]
    simp
  have herr := price_drops_loop_error_of_none _ hnone
  unfold check_prices
  rw [if_neg hcond]
  dsimp only
  rw [herr]

/-- Concrete instantiation of `null_price_aborts_check`: `stThree` holds a
product with null `current_price`, every fetch fails, and the forced check
aborts with `TypeError` (no notification attempted). -/
theorem null_price_aborts_check_witness :
    check_prices convDigits fetchFail (.ok ()) 2000 true stThree =
      .error .typeError :=
  null_price_aborts_check convDigits fetchFail (.ok ()) 2000 true stThree rfl
    (by decide)

/-- Concrete instantiation of `save_load_roundtrip` on the 3-item store. -/
theorem save_load_roundtrip_witness :
    load_products (save_products stThree.products) = stThree.products :=
  (save_load_roundtrip stThree.products).1
